import Mathlib

/-!
Shallow embedding of the `ipx800v3` Home Assistant custom integration
(`custom_components/ipx800v3/`), covering:

* the constants of `const.py`;
* the push-endpoint authentication check `check_api_auth` and the three
  HTTP push views of `__init__.py` (`IpxRequestView`, `IpxRequestDataView`,
  `IpxRequestRefreshView`);
* the configuration validation `build_device_list` and the platform
  partition performed by `async_setup_entry` via
  `filter_entities_by_platform` (`tools_entities.py`);
* the relay write operations of `switch.py` / `light.py` and the
  snapshot read paths (`is_on`, the analog `update` of `sensor.py`);
* the scan-interval handling of `async_setup_entry`.

Python strings are modelled as Lean `String`; the Python string methods
used by the source (`split`, `strip`, `lower`) are embedded as structural
recursions over the character list so that they evaluate in the kernel.
Python exceptions are modelled with `Except`/`Option`: a Python function
that can raise returns `Except Unit α` (or a dedicated error type), where
`.error` means an exception was raised.
-/

namespace Ipx800v3

/-! ## Python string primitives -/

/-- Characters Python's `str.strip()` removes (ASCII whitespace). -/
def isPyWhitespace (c : Char) : Bool :=
  c = ' ' || c = '\t' || c = '\n' || c = '\x0d' || c = '\x0b' || c = '\x0c'

/-- `str.strip()` on the character list: drop ASCII whitespace at both ends. -/
def pyStripList (l : List Char) : List Char :=
  ((l.dropWhile isPyWhitespace).reverse.dropWhile isPyWhitespace).reverse

/-- Python `str.strip()` (with no argument). -/
def pyStrip (s : String) : String :=
  ⟨pyStripList s.data⟩

/-- Helper for `pySplit`: split a character list at every occurrence of `sep`,
keeping empty pieces, exactly as Python's `str.split(sep)` with an explicit
one-character separator does. -/
def pySplitList (sep : Char) : List Char → List (List Char)
  | [] => [[]]
  | c :: cs =>
    let r := pySplitList sep cs
    if c = sep then [] :: r
    else
      match r with
      | h :: t => (c :: h) :: t
      | [] => [[c]]

/-- Python `str.split(sep)` with a one-character separator. -/
def pySplit (sep : Char) (s : String) : List String :=
  (pySplitList sep s.data).map (fun l => ⟨l⟩)

/-- Python `str.lower()`, restricted to the ASCII range actually exercised by
the integration (scheme names); `Char.toLower` lowers exactly `A`–`Z`. -/
def pyLower (s : String) : String :=
  ⟨s.data.map Char.toLower⟩

/-- Helper for `pySplitColonOnce`: Python `str.split(":", 1)` followed by the
two-variable unpacking `u, p = ...`.  Returns `none` when the string contains
no `:`, in which case the Python unpacking raises `ValueError`. -/
def pySplitColonOnceList : List Char → Option (List Char × List Char)
  | [] => none
  | c :: cs =>
    if c = ':' then some ([], cs)
    else (pySplitColonOnceList cs).map (fun p => (c :: p.1, p.2))

/-- Python `u, p = s.split(":", 1)`: `none` models the raised `ValueError`
when `s` has no colon. -/
def pySplitColonOnce (s : String) : Option (String × String) :=
  (pySplitColonOnceList s.data).map (fun p => (⟨p.1⟩, ⟨p.2⟩))

/-! ## base64 (`base64.b64decode` + `bytes.decode`)

`check_api_auth` calls the Python standard library's
`b64decode(token).decode()`.  The library is external to the repository; it
is modelled on well-formed inputs: a string over the base64 alphabet with
`=` padding and length a multiple of four decodes to its byte list, anything
else returns `none` (modelling the raised `binascii.Error`).  (CPython's
tolerance for stray non-alphabet characters under `validate=False` is not
needed by any theorem below and is not modelled.) -/

/-- Value of one base64 alphabet character. -/
def b64charVal (c : Char) : Option Nat :=
  if 'A' ≤ c ∧ c ≤ 'Z' then some (c.toNat - 65)
  else if 'a' ≤ c ∧ c ≤ 'z' then some (c.toNat - 97 + 26)
  else if '0' ≤ c ∧ c ≤ '9' then some (c.toNat - 48 + 52)
  else if c = '+' then some 62
  else if c = '/' then some 63
  else none

/-- Decode base64 characters four at a time; `=` padding is only legal in the
last quad. -/
def b64quads : List Char → Option (List Nat)
  | [] => some []
  | c1 :: c2 :: c3 :: c4 :: rest =>
    match b64charVal c1, b64charVal c2 with
    | some v1, some v2 =>
      if c3 = '=' then
        if c4 = '=' ∧ rest = [] then some [v1 * 4 + v2 / 16] else none
      else
        match b64charVal c3 with
        | some v3 =>
          if c4 = '=' then
            if rest = [] then some [v1 * 4 + v2 / 16, (v2 % 16) * 16 + v3 / 4]
            else none
          else
            match b64charVal c4 with
            | some v4 =>
              (b64quads rest).map
                (fun bs => (v1 * 4 + v2 / 16) :: ((v2 % 16) * 16 + v3 / 4) ::
                  ((v3 % 4) * 64 + v4) :: bs)
            | none => none
        | none => none
    | _, _ => none
  | _ => none

/-- `base64.b64decode`: `none` models the raised `binascii.Error`. -/
def b64decode (s : String) : Option (List Nat) :=
  b64quads s.data

/-- `bytes.decode()`: modelled for ASCII bytes (every byte `< 128` maps to its
character); `none` models a raised `UnicodeDecodeError`.  The credentials the
integration compares are ASCII, so multi-byte UTF-8 is not modelled. -/
def bytesDecode (bs : List Nat) : Option String :=
  if bs.all (fun b => b < 128) then some ⟨bs.map Char.ofNat⟩ else none

/-! ## Constants (`const.py`) -/

def DOMAIN : String := "ipx800v3"

def PUSH_USERNAME : String := "ipx800"

def DEFAULT_SCAN_INTERVAL : Nat := 10

/-- `REQUEST_REFRESH_DELAY = 0.5` seconds, expressed in milliseconds. -/
def REQUEST_REFRESH_DELAY_MS : Nat := 500

def TYPE_RELAY : String := "relay"

def TYPE_DIGITALIN : String := "digitalin"

def CONF_COMPONENT_ALLOWED : List String := ["light", "switch", "binary_sensor"]

def CONF_TYPE_ALLOWED : List String := [TYPE_RELAY, TYPE_DIGITALIN]

def PLATFORMS : List String := ["binary_sensor", "light", "switch"]

/-! ## Entity state machine (`hass.states`)

`hass.states` maps entity ids to a state string plus attributes.  It is
modelled as an association list (the real store is a dict, so keys are
unique; theorems that need uniqueness take a `Nodup` hypothesis on the
keys). -/

/-- One Home Assistant entity state: the state string and its attributes
(modelled abstractly as a key/value list, only ever copied verbatim). -/
structure EntityState where
  state : String
  attributes : List (String × String)
  deriving DecidableEq, Repr

/-- The `hass.states` store. -/
def StateMap := List (String × EntityState)

instance : DecidableEq StateMap := by
  unfold StateMap; infer_instance

/-- `hass.states.get(entity_id)`: first entry with the given id. -/
def statesGet (s : StateMap) (k : String) : Option EntityState :=
  match s with
  | [] => none
  | (k', e) :: rest => if k' = k then some e else statesGet rest k

/-- `hass.states.async_set(entity_id, state, attributes)`: replace the first
entry with the given id (or append a fresh one). -/
def statesSet (s : StateMap) (k : String) (v : String)
    (a : List (String × String)) : StateMap :=
  match s with
  | [] => [(k, ⟨v, a⟩)]
  | (k', e) :: rest =>
    if k' = k then (k, ⟨v, a⟩) :: rest else (k', e) :: statesSet rest k v a

/-- Keys of a state map. -/
def stateKeys (s : StateMap) : List String := s.map Prod.fst

/-! ## `check_api_auth` (`__init__.py` lines 320–337) -/

/-- `check_api_auth(request, host, password)`.  The request's
`Authorization` header is passed as an `Option String`.  `.ok b` is the
Python `return b`; `.error ()` means the check raised an exception
(`binascii.Error`, `UnicodeDecodeError`, or `ValueError` from the
two-variable unpacking of `split(":", 1)`). -/
def check_api_auth (authHeader : Option String) (password : String) :
    Except Unit Bool :=
  match authHeader with
  | none => .ok false
  | some header =>
    match pySplit ' ' (pyStrip header) with
    | [scheme, token] =>
      if pyLower (pyStrip scheme) = "basic" then
        match b64decode token with
        | none => .error ()
        | some bs =>
          match bytesDecode bs with
          | none => .error ()
          | some creds =>
            match pySplitColonOnce creds with
            | none => .error ()
            | some (u, pw) =>
              if u = PUSH_USERNAME then
                if pw = password then .ok true else .ok false
              else .ok false
      else .ok false
    | _ => .ok false

/-! ## Push views -/

/-- An HTTP response `(status, body)`; the handlers below return
`none` when the Python coroutine falls off the end and returns `None`
instead of a `web.Response`. -/
def HttpResp := Option (Nat × String)

instance : DecidableEq HttpResp := by
  unfold HttpResp; infer_instance

/-- `IpxRequestView.get(request, entity_id, state)` (lines 353–363).
Result: `.error s` models an unhandled exception escaping the handler with
the state store equal to `s`; `.ok (r, s)` is a normal return of `r` with
final store `s`.  Note the source only returns a `web.Response` inside the
`if old_state:` branch; on a miss it logs and returns `None`. -/
def ipxRequestViewGet (authHeader : Option String) (password : String)
    (states : StateMap) (entity_id state : String) :
    Except StateMap (HttpResp × StateMap) :=
  match check_api_auth authHeader password with
  | .error () => .error states
  | .ok false => .ok (some (401, "Unauthorized"), states)
  | .ok true =>
    match statesGet states entity_id with
    | some old_state =>
      .ok (some (200, "OK"), statesSet states entity_id state old_state.attributes)
    | none => .ok (none, states)

/-- Value coercion of the batch view:
`"on" if value in ["1", "on", "true"] else "off"`. -/
def coerceState (v : String) : String :=
  if v = "1" ∨ v = "on" ∨ v = "true" then "on" else "off"

/-- The key of one `&`-separated batch segment: `entity_data.split("=")[0]`.
`split` always returns at least one piece, so this never raises. -/
def segKey (seg : String) : String :=
  match pySplit '=' seg with
  | k :: _ => k
  | [] => ""

/-- The value of one batch segment, `entity_data.split("=")[1]`:
`none` models the `IndexError` raised when the segment has no `=`. -/
def segVal (seg : String) : Option String :=
  (pySplit '=' seg).get? 1

/-- The loop body of `IpxRequestDataView.get` over the list of
`&`-separated segments.  `.error s` models the unhandled `IndexError`
escaping the handler after the preceding segments were already applied,
leaving the store at `s`. -/
def applyBatchPairs : List String → StateMap → Except StateMap StateMap
  | [], s => .ok s
  | seg :: rest, s =>
    match segVal seg with
    | none => .error s
    | some v =>
      let st := coerceState v
      match statesGet s (segKey seg) with
      | some old_state =>
        applyBatchPairs rest (statesSet s (segKey seg) st old_state.attributes)
      | none => applyBatchPairs rest s

/-- `IpxRequestDataView.get(request, data)` (lines 379–396). -/
def ipxRequestDataViewGet (authHeader : Option String) (password : String)
    (states : StateMap) (data : String) :
    Except StateMap (HttpResp × StateMap) :=
  match check_api_auth authHeader password with
  | .error () => .error states
  | .ok false => .ok (some (401, "Unauthorized"), states)
  | .ok true =>
    match applyBatchPairs (pySplit '&' data) states with
    | .ok s' => .ok (some (200, "OK"), s')
    | .error s' => .error s'

/-- `IpxRequestRefreshView.get(request, data)` (lines 415–420); the `data`
path segment is ignored by the handler.  The second component records
whether `coordinator.async_request_refresh()` was awaited. -/
def ipxRequestRefreshViewGet (authHeader : Option String) (password : String)
    (_data : String) : Except Unit (HttpResp × Bool) :=
  match check_api_auth authHeader password with
  | .error () => .error ()
  | .ok false => .ok (some (401, "Unauthorized"), false)
  | .ok true => .ok (some (200, "OK"), true)

/-! ## Device configuration (`build_device_list`, `filter_entities_by_platform`) -/

/-- One entry of the configured device list (the fields consumed by the
validation and partition code paths; `typ` embeds the Python key
`"type"`). -/
structure DeviceConfig where
  name : String
  unique_id : String
  component : String
  typ : String
  id : Option Nat := none
  deriving DecidableEq, Repr

/-- `build_device_list(devices_config)` (`__init__.py` lines 278–312): skip
(and log) an entry whose component is not in `CONF_COMPONENT_ALLOWED` or
whose type is not in `CONF_TYPE_ALLOWED`; append the rest in order. -/
def build_device_list : List DeviceConfig → List DeviceConfig
  | [] => []
  | d :: rest =>
    if d.component ∈ CONF_COMPONENT_ALLOWED then
      if d.typ ∈ CONF_TYPE_ALLOWED then d :: build_device_list rest
      else build_device_list rest
    else build_device_list rest

/-- `filter_entities_by_platform(devices, component)` (`tools_entities.py`). -/
def filter_entities_by_platform (devices : List DeviceConfig)
    (component : String) : List DeviceConfig :=
  devices.filter (fun d => d.component = component)

/-- The platform partition `async_setup_entry` builds (lines 232–238): for
each platform in `PLATFORMS`, the configured entities — taken directly from
`config[CONF_DEVICES]`, without any call to `build_device_list` — filtered
by component. -/
def setupPlatformBuckets (entities : List DeviceConfig) :
    List (String × List DeviceConfig) :=
  PLATFORMS.map (fun p => (p, filter_entities_by_platform entities p))

/-! ## Coordinator snapshot and read paths -/

/-- `coordinator.data`: one full device fetch, mapping channel keys
(`"OUT5"`, `"IN3"`, `"AN2"`) to numeric values. -/
def Snapshot := List (String × Int)

instance : DecidableEq Snapshot := by
  unfold Snapshot; infer_instance

/-- Dictionary lookup `snapshot[key]`. -/
def snapGet (d : Snapshot) (k : String) : Option Int :=
  match d with
  | [] => none
  | (k', v) :: rest => if k' = k then some v else snapGet rest k

/-- `RelaySwitch.is_on` / `RelayLight.is_on`:
`self.coordinator.data[f"OUT{self._id}"] == 1`.  `.error ()` models the
`KeyError` when the key is absent. -/
def relayIsOn (d : Snapshot) (id : Nat) : Except Unit Bool :=
  match snapGet d ("OUT" ++ toString id) with
  | some v => .ok (v = 1)
  | none => .error ()

/-- `DigitalInBinarySensor.is_on`:
`self.coordinator.data[f"IN{self._id}"] == 1`. -/
def digitalInIsOn (d : Snapshot) (id : Nat) : Except Unit Bool :=
  match snapGet d ("IN" ++ toString id) with
  | some v => .ok (v = 1)
  | none => .error ()

/-- `AnalogInputSensor.update`:
`float(self.coordinator.data[f"AN{self._id}"])` (`sensor.py` lines 43–48);
the numeric value is returned unchanged (the `float` conversion is the
identity on the integral snapshot values). -/
def analogInputUpdate (d : Snapshot) (id : Nat) : Except Unit Int :=
  match snapGet d ("AN" ++ toString id) with
  | some v => .ok v
  | none => .error ()

/-! ## Relay write operations (`switch.py` lines 65–89, `light.py` lines 89–118)

Each of `async_turn_on` / `async_turn_off` / `async_toggle` runs
`await self.control.<method>(); await self.coordinator.async_request_refresh()`
inside a `try` whose `except` catches exactly
`(Ipx800v3CannotConnectError, Ipx800v3InvalidAuthError, Ipx800v3RequestError)`
and logs.  The outcome of each awaited gateway call is an input of the
embedding; the run is recorded as a trace of the actions performed. -/

/-- Outcome of one awaited `DeviceGateway` call. -/
inductive GwOutcome
  | ok
  | cannotConnect
  | invalidAuth
  | requestFailed
  deriving DecidableEq, Repr

/-- The three relay commands. -/
inductive RelayCmd
  | turnOn
  | turnOff
  | toggle
  deriving DecidableEq, Repr

/-- Observable actions of one relay command handler. -/
inductive WriteAct
  | deviceWrite (cmd : RelayCmd)
  | refreshRequest
  | logWriteError
  deriving DecidableEq, Repr

/-- Result of running one relay command handler: the action trace, whether an
exception escaped the handler, and `coordinator.data` afterwards. -/
structure CmdRun where
  trace : List WriteAct
  raised : Bool
  data : Snapshot

/-- One relay command (`RelaySwitch.async_turn_on` and its five siblings):
issue the device write; if it succeeds, request a coordinator refresh; any
of the three gateway errors from either await is caught and logged.  The
handler never touches `coordinator.data` (`d`). -/
def runRelayCommand (cmd : RelayCmd) (writeResult refreshResult : GwOutcome)
    (d : Snapshot) : CmdRun :=
  match writeResult with
  | .ok =>
    match refreshResult with
    | .ok => ⟨[.deviceWrite cmd, .refreshRequest], false, d⟩
    | _ => ⟨[.deviceWrite cmd, .refreshRequest, .logWriteError], false, d⟩
  | _ => ⟨[.deviceWrite cmd, .logWriteError], false, d⟩

/-- Number of device write calls in a trace (used to state that no retry is
issued). -/
def countWrites (tr : List WriteAct) : Nat :=
  tr.countP (fun a => match a with | .deviceWrite _ => true | _ => false)

/-! ## Scan interval (`async_setup_entry` lines 180–201) -/

/-- `options.get(CONF_SCAN_INTERVAL, config.get(CONF_SCAN_INTERVAL,
DEFAULT_SCAN_INTERVAL))`. -/
def resolveScanInterval (optionsScan configScan : Option Nat) : Nat :=
  optionsScan.getD (configScan.getD DEFAULT_SCAN_INTERVAL)

/-- The parameters `async_setup_entry` hands to the `DataUpdateCoordinator`
and its `Debouncer`. -/
structure CoordinatorCfg where
  updateIntervalSeconds : Nat
  cooldownMs : Nat
  immediate : Bool
  deriving DecidableEq, Repr

/-- The scan-interval slice of `async_setup_entry`: resolve the interval,
emit a warning (first component) when it is below 10, and construct the
coordinator configuration with the resolved interval unchanged; no branch
aborts setup. -/
def setupCoordinatorSlice (optionsScan configScan : Option Nat) :
    Bool × CoordinatorCfg :=
  let scan := resolveScanInterval optionsScan configScan
  (decide (scan < 10),
   { updateIntervalSeconds := scan
     cooldownMs := REQUEST_REFRESH_DELAY_MS
     immediate := false })

/-! ## Basic state-map lemmas -/

instance {ε : Type _} {α : Type _} [DecidableEq ε] [DecidableEq α] :
    DecidableEq (Except ε α) := fun x y =>
  match x, y with
  | .error a, .error b =>
    if h : a = b then .isTrue (by rw [h]) else .isFalse (by simp [h])
  | .error _, .ok _ => .isFalse (by simp)
  | .ok _, .error _ => .isFalse (by simp)
  | .ok a, .ok b =>
    if h : a = b then .isTrue (by rw [h]) else .isFalse (by simp [h])

theorem statesGet_statesSet_self (s : StateMap) (k v : String)
    (a : List (String × String)) :
    statesGet (statesSet s k v a) k = some ⟨v, a⟩ := by
  induction s with
  | nil => simp [statesSet, statesGet]
  | cons p rest ih =>
    obtain ⟨k', e⟩ := p
    by_cases h : k' = k
    · simp [statesSet, statesGet, h]
    · simp [statesSet, statesGet, h, ih]

theorem statesGet_statesSet_ne (s : StateMap) (k k' v : String)
    (a : List (String × String)) (h : k' ≠ k) :
    statesGet (statesSet s k v a) k' = statesGet s k' := by
  induction s with
  | nil => simp [statesSet, statesGet, Ne.symm h]
  | cons p rest ih =>
    obtain ⟨k₀, e⟩ := p
    by_cases h0 : k₀ = k
    · subst h0
      have hk : ¬k₀ = k' := fun hc => h hc.symm
      simp [statesSet, statesGet, hk]
    · simp [statesSet, statesGet, h0, ih]

theorem statesGet_eq_none_iff (s : StateMap) (k : String) :
    statesGet s k = none ↔ k ∉ stateKeys s := by
  induction s with
  | nil => simp [statesGet, stateKeys]
  | cons p rest ih =>
    obtain ⟨k', e⟩ := p
    by_cases h : k' = k
    · simp [statesGet, stateKeys, h]
    · simp [statesGet, stateKeys, h, ih, Ne.symm h]

/-- C1 (corrected): an authenticated single-entity push with an existing
target overwrites the state verbatim, preserves the attributes and the
other entities, and answers `200 OK`; when the target is missing the miss
is only logged and the handler returns `None` — no success acknowledgement
is produced. -/
theorem push_single_update_amended (a : Option String) (p : String)
    (s : StateMap) (k st : String)
    (hauth : check_api_auth a p = .ok true) :
    (∀ old, statesGet s k = some old →
        ipxRequestViewGet a p s k st
          = .ok (some (200, "OK"), statesSet s k st old.attributes)
        ∧ statesGet (statesSet s k st old.attributes) k
          = some ⟨st, old.attributes⟩
        ∧ ∀ k', k' ≠ k →
            statesGet (statesSet s k st old.attributes) k' = statesGet s k')
    ∧ (statesGet s k = none → ipxRequestViewGet a p s k st = .ok (none, s)) := by
  constructor
  · intro old hold
    refine ⟨?_, statesGet_statesSet_self s k st old.attributes,
      fun k' hk' => statesGet_statesSet_ne s k k' st old.attributes hk'⟩
    simp [ipxRequestViewGet, hauth, hold]
  · intro hnone
    simp [ipxRequestViewGet, hauth, hnone]

/-- Witness for `push_single_update_amended` at a concrete authenticated
request. -/
theorem push_single_update_amended_wit :
    ipxRequestViewGet (some "Basic aXB4ODAwOnB3") "pw"
        [("light.lamp1", ⟨"off", [("icon", "mdi:bulb")]⟩)] "light.lamp1" "on"
      = .ok (some (200, "OK"), [("light.lamp1", ⟨"on", [("icon", "mdi:bulb")]⟩)]) :=
  ((push_single_update_amended (some "Basic aXB4ODAwOnB3") "pw"
      [("light.lamp1", ⟨"off", [("icon", "mdi:bulb")]⟩)] "light.lamp1" "on"
      (by decide)).1 ⟨"off", [("icon", "mdi:bulb")]⟩ (by decide)).1

/-- C1 counterexample: an authenticated push for a missing entity returns no
response at all (the coroutine returns `None`), not the claimed `200 OK`
acknowledgement. -/
theorem push_single_miss_no_ack_cx :
    ipxRequestViewGet (some "Basic aXB4ODAwOnB3") "pw"
        [("light.lamp1", ⟨"off", []⟩)] "light.lamp2" "on"
      = .ok (none, [("light.lamp1", ⟨"off", []⟩)])
    ∧ ipxRequestViewGet (some "Basic aXB4ODAwOnB3") "pw"
        [("light.lamp1", ⟨"off", []⟩)] "light.lamp2" "on"
      ≠ .ok (some (200, "OK"), [("light.lamp1", ⟨"off", []⟩)]) := by
  decide

/-- C2 (corrected): a missing `Authorization` header, a header that does not
split into exactly two space-separated tokens, a scheme other than `Basic`,
and correct-scheme credentials with a wrong username or password all make
`check_api_auth` return `False`, upon which each of the three push views
answers `401 Unauthorized` without touching the entity state store. (The
further part of the original claim — that the check never raises — is
refuted by `push_auth_raises_cx`.) -/
theorem push_auth_rejection_amended :
    (∀ p, check_api_auth none p = .ok false)
    ∧ (∀ h p, (pySplit ' ' (pyStrip h)).length ≠ 2 →
        check_api_auth (some h) p = .ok false)
    ∧ (∀ h p x y, pySplit ' ' (pyStrip h) = [x, y] →
        pyLower (pyStrip x) ≠ "basic" → check_api_auth (some h) p = .ok false)
    ∧ (∀ h p x y bs creds u pw, pySplit ' ' (pyStrip h) = [x, y] →
        pyLower (pyStrip x) = "basic" → b64decode y = some bs →
        bytesDecode bs = some creds → pySplitColonOnce creds = some (u, pw) →
        (u ≠ PUSH_USERNAME ∨ pw ≠ p) → check_api_auth (some h) p = .ok false)
    ∧ (∀ a p s k st, check_api_auth a p = .ok false →
        ipxRequestViewGet a p s k st = .ok (some (401, "Unauthorized"), s))
    ∧ (∀ a p s d, check_api_auth a p = .ok false →
        ipxRequestDataViewGet a p s d = .ok (some (401, "Unauthorized"), s))
    ∧ (∀ a p d, check_api_auth a p = .ok false →
        ipxRequestRefreshViewGet a p d = .ok (some (401, "Unauthorized"), false)) := by
  refine ⟨fun p => rfl, ?_, ?_, ?_, ?_, ?_, ?_⟩
  · intro h p hlen
    match hs : pySplit ' ' (pyStrip h) with
    | [] => simp [check_api_auth, hs]
    | [x] => simp [check_api_auth, hs]
    | [x, y] => exact absurd (by rw [hs]; rfl) hlen
    | x :: y :: z :: rest => simp [check_api_auth, hs]
  · intro h p x y hs hscheme
    simp [check_api_auth, hs, hscheme]
  · intro h p x y bs creds u pw hs hscheme hb hd hc hne
    simp only [check_api_auth, hs, hscheme, if_true, hb, hd, hc]
    rcases hne with hne | hne
    · simp [hne]
    · by_cases hu : u = PUSH_USERNAME <;> simp [hu, hne]
  · intro a p s k st hfalse
    simp [ipxRequestViewGet, hfalse]
  · intro a p s d hfalse
    simp [ipxRequestDataViewGet, hfalse]
  · intro a p d hfalse
    simp [ipxRequestRefreshViewGet, hfalse]

/-- Witness for `push_auth_rejection_amended`: each rejection category at a
concrete request; in every case the store is untouched and the status is
401. -/
theorem push_auth_rejection_amended_wit :
    check_api_auth (none : Option String) "pw" = .ok false
    ∧ check_api_auth (some "Basic a b c") "pw" = .ok false
    ∧ check_api_auth (some "Bearer aXB4ODAwOnB3") "pw" = .ok false
    ∧ check_api_auth (some "Basic aXB4ODAwOndyb25n") "pw" = .ok false
    ∧ ipxRequestViewGet (some "Bearer x") "pw" [("light.lamp1", ⟨"off", []⟩)]
        "light.lamp1" "on"
      = .ok (some (401, "Unauthorized"), [("light.lamp1", ⟨"off", []⟩)])
    ∧ ipxRequestDataViewGet (some "Bearer x") "pw" [("light.lamp1", ⟨"off", []⟩)]
        "lamp1=1"
      = .ok (some (401, "Unauthorized"), [("light.lamp1", ⟨"off", []⟩)])
    ∧ ipxRequestRefreshViewGet (some "Bearer x") "pw" "refresh"
      = .ok (some (401, "Unauthorized"), false) :=
  ⟨push_auth_rejection_amended.1 "pw",
   push_auth_rejection_amended.2.1 "Basic a b c" "pw" (by decide),
   push_auth_rejection_amended.2.2.1 "Bearer aXB4ODAwOnB3" "pw" "Bearer"
     "aXB4ODAwOnB3" (by decide) (by decide),
   push_auth_rejection_amended.2.2.2.1 "Basic aXB4ODAwOndyb25n" "pw" "Basic"
     "aXB4ODAwOndyb25n" [105, 112, 120, 56, 48, 48, 58, 119, 114, 111, 110, 103]
     "ipx800:wrong" "ipx800" "wrong" (by decide) (by decide) (by decide)
     (by decide) (by decide) (Or.inr (by decide)),
   push_auth_rejection_amended.2.2.2.2.1 (some "Bearer x") "pw"
     [("light.lamp1", ⟨"off", []⟩)] "light.lamp1" "on" (by decide),
   push_auth_rejection_amended.2.2.2.2.2.1 (some "Bearer x") "pw"
     [("light.lamp1", ⟨"off", []⟩)] "lamp1=1" (by decide),
   push_auth_rejection_amended.2.2.2.2.2.2 (some "Bearer x") "pw" "refresh"
     (by decide)⟩

/-- C2 counterexample: `check_api_auth` raises (rather than returning
`False`) on a two-token `Basic` header whose base64 payload decodes to
credentials without a colon — `b64decode("QUFBQQ==") = b"AAAA"`, and the
two-variable unpacking of `"AAAA".split(":", 1)` raises `ValueError`, so
the endpoint crashes instead of answering 401. -/
theorem push_auth_raises_cx :
    check_api_auth (some "Basic QUFBQQ==") "pw" = .error ()
    ∧ ipxRequestDataViewGet (some "Basic QUFBQQ==") "pw"
        [("light.lamp1", ⟨"off", []⟩)] "lamp1=1"
      = .error [("light.lamp1", ⟨"off", []⟩)] := by
  decide

/-! ## Semantic characterization of the batch apply (proof infrastructure)

`applyBatchPairs` is characterized, on duplicate-free stores and well-formed
segment lists, as a per-entity map: each entity's state string becomes the
coerced value of the last segment naming it (or stays put), and attributes
and keys are untouched.  Idempotence of the batch handler follows. -/

/-- State string of key `k` after folding the batch segments over the
initial state string `init`. -/
def stateAfter (segs : List String) (init : String) (k : String) : String :=
  segs.foldl
    (fun acc seg =>
      match segVal seg with
      | some v => if segKey seg = k then coerceState v else acc
      | none => acc)
    init

/-- The semantic effect of a batch on a store. -/
def semApply (segs : List String) (s : StateMap) : StateMap :=
  s.map (fun p => (p.1, ⟨stateAfter segs p.2.state p.1, p.2.attributes⟩))

theorem stateAfter_nil (init k : String) : stateAfter [] init k = init := rfl

theorem stateAfter_cons (seg : String) (segs : List String) (init k : String) :
    stateAfter (seg :: segs) init k
      = stateAfter segs
          (match segVal seg with
           | some v => if segKey seg = k then coerceState v else init
           | none => init) k := rfl

theorem semApply_nil (s : StateMap) : semApply [] s = s := by
  induction s with
  | nil => rfl
  | cons p rest ih =>
    obtain ⟨k, e⟩ := p
    simp only [semApply, stateAfter_nil, List.map_cons] at ih ⊢
    rw [ih]

theorem stateKeys_semApply (segs : List String) (s : StateMap) :
    stateKeys (semApply segs s) = stateKeys s := by
  simp [stateKeys, semApply, List.map_map, Function.comp]

/-- A conditional per-entry rewrite leaves the store unchanged when the key
is absent. -/
theorem condMap_of_not_mem (s : StateMap) (k : String) (g : EntityState → EntityState)
    (h : k ∉ stateKeys s) :
    s.map (fun p => (p.1, if p.1 = k then g p.2 else p.2)) = s := by
  induction s with
  | nil => rfl
  | cons p rest ih =>
    obtain ⟨k₀, e⟩ := p
    have hne : k₀ ≠ k := by
      intro hc
      exact h (by simp [stateKeys, hc])
    have hrest : k ∉ stateKeys rest := by
      intro hc
      exact h (by simp [stateKeys] at hc ⊢; exact Or.inr hc)
    simp [hne, ih hrest]

/-- On a duplicate-free store, updating the first entry with key `k`
(carrying over that entry's attributes) is the conditional per-entry map. -/
theorem statesSet_eq_condMap (s : StateMap) (k v : String) (old : EntityState)
    (hnd : (stateKeys s).Nodup) (hget : statesGet s k = some old) :
    statesSet s k v old.attributes
      = s.map (fun p => (p.1, if p.1 = k then (⟨v, p.2.attributes⟩ : EntityState) else p.2)) := by
  induction s with
  | nil => simp [statesGet] at hget
  | cons p rest ih =>
    obtain ⟨k₀, e⟩ := p
    rw [stateKeys] at hnd
    simp only [List.map_cons, List.nodup_cons] at hnd
    by_cases h0 : k₀ = k
    · subst h0
      rw [statesGet, if_pos rfl] at hget
      obtain rfl : e = old := Option.some.inj hget
      have hmem : k₀ ∉ stateKeys rest := hnd.1
      simp [statesSet,
        condMap_of_not_mem rest k₀ (fun es => (⟨v, es.attributes⟩ : EntityState)) hmem]
    · rw [statesGet, if_neg h0] at hget
      simp [statesSet, h0, ih hnd.2 hget]

/-- Characterization of the handler loop: on a duplicate-free store and
well-formed segments, `applyBatchPairs` succeeds with the semantic map. -/
theorem applyBatchPairs_eq_semApply (segs : List String) :
    ∀ s : StateMap, (∀ seg ∈ segs, (segVal seg).isSome) → (stateKeys s).Nodup →
      applyBatchPairs segs s = .ok (semApply segs s) := by
  induction segs with
  | nil => intro s _ _; simp [applyBatchPairs, semApply_nil]
  | cons seg rest ih =>
    intro s hwf hnd
    obtain ⟨v, hv⟩ := Option.isSome_iff_exists.mp (hwf seg (by simp))
    have hwf' : ∀ sg ∈ rest, (segVal sg).isSome := fun sg hsg => hwf sg (by simp [hsg])
    cases hget : statesGet s (segKey seg) with
    | none =>
      simp only [applyBatchPairs, hv, hget]
      have hnotmem : segKey seg ∉ stateKeys s := (statesGet_eq_none_iff s _).mp hget
      rw [ih s hwf' hnd]
      congr 1
      unfold semApply
      apply List.map_congr_left
      intro p hp
      have hne : segKey seg ≠ p.1 := by
        intro hc
        exact hnotmem (hc ▸ List.mem_map_of_mem Prod.fst hp)
      simp only [stateAfter_cons, hv, if_neg hne]
    | some old =>
      simp only [applyBatchPairs, hv, hget]
      rw [statesSet_eq_condMap s _ _ old hnd hget]
      have hkeys : stateKeys (s.map (fun p =>
          (p.1, if p.1 = segKey seg then (⟨coerceState v, p.2.attributes⟩ : EntityState) else p.2)))
          = stateKeys s := by
        simp [stateKeys, List.map_map, Function.comp]
      rw [ih _ hwf' (by rw [hkeys]; exact hnd)]
      congr 1
      unfold semApply
      rw [List.map_map]
      apply List.map_congr_left
      intro p _
      simp only [Function.comp_apply]
      by_cases hpk : p.1 = segKey seg
      · simp [hpk, stateAfter_cons, hv]
      · simp [hpk, stateAfter_cons, hv, Ne.symm hpk]

/-- For a fixed key, the per-key fold is either the identity on the initial
state or a constant. -/
theorem stateAfter_const_or_id (segs : List String) (k : String) :
    (∀ i, stateAfter segs i k = i) ∨ ∃ v, ∀ i, stateAfter segs i k = v := by
  induction segs with
  | nil => exact Or.inl fun i => rfl
  | cons seg rest ih =>
    cases ih with
    | inr hconst =>
      obtain ⟨v, hv⟩ := hconst
      exact Or.inr ⟨v, fun i => by rw [stateAfter_cons]; exact hv _⟩
    | inl hid =>
      cases hv : segVal seg with
      | none => exact Or.inl fun i => by simp only [stateAfter_cons, hv]; exact hid i
      | some v =>
        by_cases hk : segKey seg = k
        · refine Or.inr ⟨coerceState v, fun i => ?_⟩
          simp only [stateAfter_cons, hv, if_pos hk]
          exact hid _
        · exact Or.inl fun i => by
            simp only [stateAfter_cons, hv, if_neg hk]; exact hid i

theorem semApply_idem (segs : List String) (s : StateMap) :
    semApply segs (semApply segs s) = semApply segs s := by
  unfold semApply
  rw [List.map_map]
  apply List.map_congr_left
  intro p _
  simp only [Function.comp_apply]
  rcases stateAfter_const_or_id segs p.1 with hid | ⟨v, hv⟩
  · rw [hid, hid]
  · rw [hv, hv]

/-- A successful run of the handler loop implies every segment contained an
`=`. -/
theorem applyBatchPairs_ok_wf (segs : List String) :
    ∀ s s' : StateMap, applyBatchPairs segs s = .ok s' →
      ∀ seg ∈ segs, (segVal seg).isSome := by
  induction segs with
  | nil => intro s s' _ seg hseg; cases hseg
  | cons sg rest ih =>
    intro s s' happ seg hseg
    simp only [applyBatchPairs] at happ
    cases hv : segVal sg with
    | none =>
      simp only [hv] at happ
      exact Except.noConfusion happ
    | some v =>
      simp only [hv] at happ
      rcases List.mem_cons.mp hseg with rfl | hseg
      · simp [hv]
      · cases hget : statesGet s (segKey sg) with
        | none => simp only [hget] at happ; exact ih _ _ happ seg hseg
        | some old => simp only [hget] at happ; exact ih _ _ happ seg hseg

/-- C3: each `&`-separated batch pair is applied independently; a value maps
to "on" exactly when it is one of "1"/"on"/"true" and to "off" otherwise; an
unknown key is skipped without failing the batch; and applying the same
batch twice in a row yields the same final states as applying it once —
e.g. `"lamp1=on&lamp2=0&lamp3=true"` gives lamp1 on, lamp2 off, lamp3 on. -/
theorem push_batch_semantics :
    (∀ v : String, ((v = "1" ∨ v = "on" ∨ v = "true") → coerceState v = "on")
        ∧ (¬(v = "1" ∨ v = "on" ∨ v = "true") → coerceState v = "off"))
    ∧ (∀ (seg : String) (s : StateMap), (segVal seg).isSome →
        statesGet s (segKey seg) = none → applyBatchPairs [seg] s = .ok s)
    ∧ (∀ (segs : List String) (s s' : StateMap), (stateKeys s).Nodup →
        applyBatchPairs segs s = .ok s' → applyBatchPairs segs s' = .ok s')
    ∧ ipxRequestDataViewGet (some "Basic aXB4ODAwOnB3") "pw"
        [("lamp1", ⟨"off", []⟩), ("lamp2", ⟨"on", []⟩), ("lamp3", ⟨"off", []⟩)]
        "lamp1=on&lamp2=0&lamp3=true"
      = .ok (some (200, "OK"),
          [("lamp1", ⟨"on", []⟩), ("lamp2", ⟨"off", []⟩), ("lamp3", ⟨"on", []⟩)])
    ∧ ipxRequestDataViewGet (some "Basic aXB4ODAwOnB3") "pw"
        [("lamp1", ⟨"on", []⟩), ("lamp2", ⟨"off", []⟩), ("lamp3", ⟨"on", []⟩)]
        "lamp1=on&lamp2=0&lamp3=true"
      = .ok (some (200, "OK"),
          [("lamp1", ⟨"on", []⟩), ("lamp2", ⟨"off", []⟩), ("lamp3", ⟨"on", []⟩)]) := by
  refine ⟨?_, ?_, ?_, by decide, by decide⟩
  · intro v
    constructor
    · intro h; simp only [coerceState, if_pos h]
    · intro h; simp only [coerceState, if_neg h]
  · intro seg s hwf hnone
    obtain ⟨v, hv⟩ := Option.isSome_iff_exists.mp hwf
    simp [applyBatchPairs, hv, hnone]
  · intro segs s s' hnd happ
    have hwf := applyBatchPairs_ok_wf segs s s' happ
    have hchar := applyBatchPairs_eq_semApply segs s hwf hnd
    obtain rfl : s' = semApply segs s := Except.ok.inj (happ.symm.trans hchar)
    have hnd' : (stateKeys (semApply segs s)).Nodup := by
      rw [stateKeys_semApply]; exact hnd
    rw [applyBatchPairs_eq_semApply segs _ hwf hnd', semApply_idem]

/-- Witness for `push_batch_semantics`, discharging the hypothesized
conjuncts at concrete inputs. -/
theorem push_batch_semantics_wit :
    (coerceState "true" = "on" ∧ coerceState "0" = "off")
    ∧ applyBatchPairs ["nope=1"] [("lamp1", ⟨"off", []⟩)]
        = .ok [("lamp1", ⟨"off", []⟩)]
    ∧ applyBatchPairs ["lamp1=on"] [("lamp1", ⟨"on", []⟩)]
        = .ok [("lamp1", ⟨"on", []⟩)] :=
  ⟨⟨(push_batch_semantics.1 "true").1 (Or.inr (Or.inr rfl)),
    (push_batch_semantics.1 "0").2 (by decide)⟩,
   push_batch_semantics.2.1 "nope=1" [("lamp1", ⟨"off", []⟩)]
     (by decide) (by decide),
   push_batch_semantics.2.2.1 ["lamp1=on"] [("lamp1", ⟨"off", []⟩)]
     [("lamp1", ⟨"on", []⟩)] (by decide) (by decide)⟩

/-- A well-formed prefix applies, after which a segment without `=` crashes
the loop with the partially-updated store. -/
theorem applyBatchPairs_append_crash (bad : String) (post : List String)
    (hbad : segVal bad = none) :
    ∀ (pre : List String) (s : StateMap), (∀ seg ∈ pre, (segVal seg).isSome) →
      ∃ s₁, applyBatchPairs pre s = .ok s₁
        ∧ applyBatchPairs (pre ++ bad :: post) s = .error s₁ := by
  intro pre
  induction pre with
  | nil =>
    intro s _
    exact ⟨s, rfl, by simp [applyBatchPairs, hbad]⟩
  | cons sg rest ih =>
    intro s hwf
    obtain ⟨v, hv⟩ := Option.isSome_iff_exists.mp (hwf sg (by simp))
    have hwf' : ∀ seg ∈ rest, (segVal seg).isSome :=
      fun seg hseg => hwf seg (by simp [hseg])
    cases hget : statesGet s (segKey sg) with
    | none =>
      obtain ⟨s₁, h1, h2⟩ := ih s hwf'
      exact ⟨s₁, by simp [applyBatchPairs, hv, hget, h1],
        by simp [applyBatchPairs, hv, hget, h2]⟩
    | some old =>
      obtain ⟨s₁, h1, h2⟩ :=
        ih (statesSet s (segKey sg) (coerceState v) old.attributes) hwf'
      exact ⟨s₁, by simp [applyBatchPairs, hv, hget, h1],
        by simp [applyBatchPairs, hv, hget, h2]⟩

/-- C10 (implicit): on an authenticated batch push whose data contains an
`&`-separated segment without `=`, the handler applies every well-formed
pair preceding the bad segment and then raises an unhandled `IndexError`
when indexing the missing value — the batch is neither acknowledged with
`200 OK` nor applied atomically. -/
theorem batch_malformed_segment_crash (a : Option String) (p data : String)
    (s : StateMap) (pre : List String) (bad : String) (post : List String)
    (hauth : check_api_auth a p = .ok true)
    (hsplit : pySplit '&' data = pre ++ bad :: post)
    (hpre : ∀ seg ∈ pre, (segVal seg).isSome) (hbad : segVal bad = none) :
    ∃ s₁, applyBatchPairs pre s = .ok s₁
      ∧ ipxRequestDataViewGet a p s data = .error s₁ := by
  obtain ⟨s₁, h1, h2⟩ := applyBatchPairs_append_crash bad post hbad pre s hpre
  exact ⟨s₁, h1, by simp [ipxRequestDataViewGet, hauth, hsplit, h2]⟩

/-- Witness for `batch_malformed_segment_crash`: the authenticated batch
`"lamp1=1&lamp2"` applies `lamp1=1` and then crashes. -/
theorem batch_malformed_segment_crash_wit :
    ∃ s₁, applyBatchPairs ["lamp1=1"] [("lamp1", ⟨"off", []⟩)] = .ok s₁
      ∧ ipxRequestDataViewGet (some "Basic aXB4ODAwOnB3") "pw"
          [("lamp1", ⟨"off", []⟩)] "lamp1=1&lamp2" = .error s₁ :=
  batch_malformed_segment_crash (some "Basic aXB4ODAwOnB3") "pw"
    "lamp1=1&lamp2" [("lamp1", ⟨"off", []⟩)] ["lamp1=1"] "lamp2" []
    (by decide) (by decide) (by decide) (by decide)

/-- An analog-input channel configuration as the spec intends it
(component `"sensor"`, type `"analogin"`). -/
def exampleAnalogCfg : DeviceConfig :=
  { name := "temperature", unique_id := "temp1", component := "sensor",
    typ := "analogin", id := some 2 }

/-- C4 (code bug): analog inputs are not supported end to end.  The sensor
read path does project `snapshot["AN{id}"]` as claimed, but `"sensor"` is
missing from `CONF_COMPONENT_ALLOWED` and from `PLATFORMS` and
`"analogin"` is missing from `CONF_TYPE_ALLOWED`, so an analog-input
channel fails validation, lands in no platform bucket, and is never
registered (`const.py` also omits the `TYPE_ANALOGIN` constant that
`__init__.py` and `sensor.py` import). -/
theorem analog_input_not_supported :
    "sensor" ∉ CONF_COMPONENT_ALLOWED
    ∧ "analogin" ∉ CONF_TYPE_ALLOWED
    ∧ "sensor" ∉ PLATFORMS
    ∧ build_device_list [exampleAnalogCfg] = []
    ∧ setupPlatformBuckets [exampleAnalogCfg]
      = [("binary_sensor", []), ("light", []), ("switch", [])]
    ∧ analogInputUpdate [("AN2", 42)] 2 = .ok 42 := by
  decide

/-- A channel entry with a supported component but unsupported type. -/
def exampleBadTypeCfg : DeviceConfig :=
  { name := "bogus", unique_id := "b1", component := "light", typ := "analogin" }

/-- C5 counterexample: integration setup does not validate — the partition
it builds keeps an entry with an unsupported channel type which
`build_device_list` (never invoked by `async_setup_entry`) would have
dropped. -/
theorem setup_skips_validation_cx :
    build_device_list [exampleBadTypeCfg] = []
    ∧ setupPlatformBuckets [exampleBadTypeCfg]
      = [("binary_sensor", []), ("light", [exampleBadTypeCfg]), ("switch", [])] := by
  decide

/-- C5 (corrected): `build_device_list` is exactly the order-preserving
filter keeping entries whose component and type are both supported (so it
drops unsupported entries per-entry and without failing the rest); but
`async_setup_entry` never calls it — the platform buckets it registers are
the raw configured list partitioned by component over `PLATFORMS`. -/
theorem device_list_validation_amended (ds : List DeviceConfig) :
    build_device_list ds
      = ds.filter (fun d => decide (d.component ∈ CONF_COMPONENT_ALLOWED)
          && decide (d.typ ∈ CONF_TYPE_ALLOWED))
    ∧ setupPlatformBuckets ds
      = PLATFORMS.map (fun p => (p, ds.filter (fun d => decide (d.component = p)))) := by
  constructor
  · induction ds with
    | nil => rfl
    | cons d rest ih =>
      by_cases hc : d.component ∈ CONF_COMPONENT_ALLOWED
      · by_cases ht : d.typ ∈ CONF_TYPE_ALLOWED
        · simp [build_device_list, hc, ht, List.filter_cons, ih]
        · simp [build_device_list, hc, ht, List.filter_cons, ih]
      · simp [build_device_list, hc, List.filter_cons, ih]
  · rfl

/-- C6: for every relay-backed write command and every gateway outcome, no
exception propagates out of the entity handler, exactly one device write is
issued (no retry), the coordinator snapshot — the only state the entity's
read path consults — is unchanged, and a failure of either awaited call is
logged. -/
theorem relay_write_errors_contained (cmd : RelayCmd) (w r : GwOutcome)
    (d : Snapshot) :
    (runRelayCommand cmd w r d).raised = false
    ∧ countWrites (runRelayCommand cmd w r d).trace = 1
    ∧ (runRelayCommand cmd w r d).data = d
    ∧ (w ≠ .ok ∨ (w = .ok ∧ r ≠ .ok) →
        .logWriteError ∈ (runRelayCommand cmd w r d).trace) := by
  cases w <;> cases r <;>
    simp [runRelayCommand, countWrites, List.countP, List.countP.go]

/-- Witness for `relay_write_errors_contained` at a failing gateway call. -/
theorem relay_write_errors_contained_wit :
    (runRelayCommand .turnOn .cannotConnect .ok []).raised = false
    ∧ countWrites (runRelayCommand .turnOn .cannotConnect .ok []).trace = 1
    ∧ (runRelayCommand .turnOn .cannotConnect .ok []).data = []
    ∧ (GwOutcome.cannotConnect ≠ .ok ∨ (GwOutcome.cannotConnect = .ok ∧ GwOutcome.ok ≠ .ok) →
        .logWriteError ∈ (runRelayCommand .turnOn .cannotConnect .ok []).trace) :=
  relay_write_errors_contained .turnOn .cannotConnect .ok []

/-- C7: every relay command issues the device write first; on a successful
write the refresh request immediately follows (it is issued even on
success); and the command never changes the coordinator snapshot, so the
read path (`is_on`) changes only when a new snapshot replaces it. -/
theorem relay_write_then_refresh (cmd : RelayCmd) (w r : GwOutcome)
    (d : Snapshot) :
    (runRelayCommand cmd w r d).trace.take 1 = [.deviceWrite cmd]
    ∧ (w = .ok → (runRelayCommand cmd w r d).trace.get? 1 = some .refreshRequest)
    ∧ (runRelayCommand cmd w r d).data = d
    ∧ ∀ id, relayIsOn (runRelayCommand cmd w r d).data id = relayIsOn d id := by
  cases w <;> cases r <;> simp [runRelayCommand]

/-- Witness for `relay_write_then_refresh` on a successful write. -/
theorem relay_write_then_refresh_wit :
    (runRelayCommand .turnOn .ok .ok [("OUT1", 1)]).trace.take 1
      = [.deviceWrite .turnOn]
    ∧ (GwOutcome.ok = .ok →
        (runRelayCommand .turnOn .ok .ok [("OUT1", 1)]).trace.get? 1
          = some .refreshRequest)
    ∧ (runRelayCommand .turnOn .ok .ok [("OUT1", 1)]).data = [("OUT1", 1)]
    ∧ ∀ id, relayIsOn (runRelayCommand .turnOn .ok .ok [("OUT1", 1)]).data id
        = relayIsOn [("OUT1", 1)] id :=
  relay_write_then_refresh .turnOn .ok .ok [("OUT1", 1)]

/-- C9: a resolved scan interval strictly below 10 seconds only triggers the
warning; the coordinator is still configured, with the resolved interval
unchanged (and the fixed 500 ms non-immediate refresh debouncer). -/
theorem scan_interval_warning_only (optionsScan configScan : Option Nat)
    (h : resolveScanInterval optionsScan configScan < 10) :
    (setupCoordinatorSlice optionsScan configScan).1 = true
    ∧ (setupCoordinatorSlice optionsScan configScan).2
      = { updateIntervalSeconds := resolveScanInterval optionsScan configScan,
          cooldownMs := REQUEST_REFRESH_DELAY_MS, immediate := false } := by
  exact ⟨by simp [setupCoordinatorSlice, h], rfl⟩

/-- Witness for `scan_interval_warning_only` at a configured interval of
5 seconds. -/
theorem scan_interval_warning_only_wit :
    (setupCoordinatorSlice (some 5) none).1 = true
    ∧ (setupCoordinatorSlice (some 5) none).2
      = { updateIntervalSeconds := resolveScanInterval (some 5) none,
          cooldownMs := REQUEST_REFRESH_DELAY_MS, immediate := false } :=
  scan_interval_warning_only (some 5) none (by decide)

end Ipx800v3
